import Mathlib

/-!
# Verification of the ERCOT client (`pyiso/ercot.py`)

A shallow embedding of the ERCOT grid-operator client: time normalization
(`utcify`, `is_dst`), report discovery (`_request_report`, listing scan),
report materialization (empty response, column trimming, null-row drop),
generation reconciliation (`get_generation`) and load retrieval (`get_load`).

Timestamps are modelled as `Int` seconds.  A naive local timestamp is an
`Int` of local seconds; an absolute (UTC) instant is an `Int` of UTC seconds.
Numeric report fields that the code feeds to Python `float(...)` are
modelled as `Option ℚ`: `some q` when the raw string parses, `none` when it
is blank or unparseable (Python raises `ValueError` there).
-/

namespace Ercot

/-- Modelled from the spec: `BaseClient.utcify` (in `pyiso/base.py`, not part
of the provided source) localizes a naive local timestamp to the operator's
fixed civil time zone (US/Central) using the `is_dst` disambiguation flag and
converts it to absolute time.  CDT is UTC-5, CST is UTC-6, so the absolute
instant is the local time plus the standard/daylight offset selected by the
flag. -/
def base_utcify (local_ts : Int) (is_dst : Bool) : Int :=
  local_ts + (if is_dst then 5 * 3600 else 6 * 3600)

/-- `ERCOTClient.utcify`: if `hour_ending` is true, subtract one hour from the
naive local timestamp, then delegate to the base-class localization. -/
def utcify (local_ts : Int) (hour_ending : Bool) (is_dst : Bool) : Int :=
  base_utcify (if hour_ending then local_ts - 3600 else local_ts) is_dst

/-- `ERCOTClient.is_dst`: the DST boolean is `val != standard`. -/
def is_dst (val standard : String) : Bool :=
  val ≠ standard

/-- Modelled from the spec: re-express an absolute instant back in the
operator's local civil time under the hour-ending convention (the inverse
direction used by the round-trip property; it is not a function of the
source, only of the spec's wording). -/
def localHourEndingOf (utc_ts : Int) (is_dst : Bool) : Int :=
  (utc_ts - (if is_dst then 5 * 3600 else 6 * 3600)) + 3600

/-- `datetime.replace(minute=0, second=0, microsecond=0)` on an hour-aligned
clock: truncate an instant down to the top of its hour. -/
def floorHour (ts : Int) : Int :=
  ts - ts.emod 3600

/-- Frequency choices used by the client (the `FREQUENCY_CHOICES` enum lives
in the base class; modelled from the spec, which calls the relevant value
`hourly`). -/
inductive Freq where
  | hourly
  | fivemin
deriving DecidableEq, Repr

/-- Market choices used by the client (the `MARKET_CHOICES` enum lives in the
base class; modelled from the spec: `hourly` for generation, `dam` for the
load forecast, `fivemin` for the latest load). -/
inductive Market where
  | hourly
  | dam
  | fivemin
deriving DecidableEq, Repr

end Ercot

namespace Ercot

/-- One row of an HTML report listing, as consumed by `_request_report`:
the text of the `labelOptional_ind` cell when present, and the `href` of the
row's anchor. -/
structure ListingEntry where
  label : Option String
  href : String
deriving DecidableEq, Repr

/-- Python-level failures surfaced by the client. -/
inductive PyErr where
  /-- `IndexError` from `raw_gen_df.iloc[0]` on an empty table. -/
  | indexError
  /-- `ValueError` with a message (float/int parse failures, invalid mode). -/
  | valueError (msg : String)
  /-- The `ValueError('ERCOT: No report available for %s, soup:...')` raised
  by `_request_report`; it carries the report id and the raw listing. -/
  | reportNotFound (report_type : String) (listing : List ListingEntry)
  /-- `ParseError`-style failure of `parse_rtm_load` when an anchor label is
  absent from the scraped page. -/
  | parseError
deriving DecidableEq, Repr

end Ercot

/-- Decidable equality for `Except`, needed to evaluate the client's
results on concrete inputs. -/
instance exceptDecEq {ε α : Type} [DecidableEq ε] [DecidableEq α] :
    DecidableEq (Except ε α) := fun x y =>
  match x, y with
  | .error e, .error f =>
    if h : e = f then .isTrue (by rw [h]) else .isFalse (by simp [h])
  | .error _, .ok _ => .isFalse (by simp)
  | .ok _, .error _ => .isFalse (by simp)
  | .ok a, .ok b =>
    if h : a = b then .isTrue (by rw [h]) else .isFalse (by simp [h])

namespace Ercot

/- Substring matching (`'csv' in label`), implemented structurally over the
character list of a string. -/

/-- `hasSubList pat cs` is true when `pat` occurs as a contiguous run
inside `cs`. -/
def hasSubList (pat : List Char) : List Char → Bool
  | [] => pat.isEmpty
  | c :: cs => pat.isPrefixOf (c :: cs) || hasSubList pat cs

/-- Python `'csv' in s`. -/
def containsCsv (s : String) : Bool :=
  hasSubList ['c', 's', 'v'] s.data

/-- The loop body of `_request_report`'s listing scan: skip rows without a
label cell, return the first row whose label contains `csv`, joined onto the
base url. -/
def findCsvEndpoint (base : String) : List ListingEntry → Option String
  | [] => none
  | e :: rest =>
    match e.label with
    | some l => if containsCsv l then some (base ++ e.href) else findCsvEndpoint base rest
    | none => findCsvEndpoint base rest

/-- `ERCOTClient.base_report_url`. -/
def base_report_url : String := "http://mis.ercot.com"

/-- The discovery half of `_request_report`: scan the listing in document
order for the first CSV-labelled entry; raise the no-report `ValueError`
(carrying the report id and the raw listing) when none qualifies. -/
def locateReport (report_type : String) (listing : List ListingEntry) :
    Except PyErr String :=
  match findCsvEndpoint base_report_url listing with
  | some endpoint => .ok endpoint
  | none => .error (.reportNotFound report_type listing)

/-- An entry qualifies for selection when its label cell is present and its
text contains the substring `csv`. -/
def entryHasCsv (e : ListingEntry) : Bool :=
  match e.label with
  | some l => containsCsv l
  | none => false

end Ercot

namespace Ercot

/- Report materialization: the download half of `_request_report`. -/

/-- A parsed CSV table: raw column names and rows of cells, where a cell is
`none` when pandas read it as null/NaN. -/
structure RawTable where
  columns : List String
  rows : List (List (Option String))
deriving DecidableEq, Repr

/-- Python `str.strip()`: drop leading and trailing whitespace characters. -/
def pyStrip (s : String) : String :=
  ⟨((s.data.dropWhile Char.isWhitespace).reverse.dropWhile Char.isWhitespace).reverse⟩

/-- The materialization half of `_request_report`: a falsy transport response
returns an empty `DataFrame`; otherwise every column name is stripped and
`dropna(axis=0)` removes every row holding a null cell. -/
def materializeReport (response : Option RawTable) : RawTable :=
  match response with
  | none => { columns := [], rows := [] }
  | some t =>
    { columns := t.columns.map pyStrip
      rows := t.rows.filter (fun row => row.all Option.isSome) }

end Ercot

namespace Ercot

/- Generation reconciliation: `get_generation`. -/

/-- A row of the hourly total-generation report (`gen_hrly`), with the fields
`get_generation` reads.  `SE_MW` holds the result of Python `float(...)` on
the raw field (`none` when that parse would raise `ValueError`);
`SE_EXE_TIME` is the row's naive local timestamp. -/
structure GenRow where
  SE_MW : Option ℚ
  SE_EXE_TIME : Int
  SE_EXE_TIME_DST : String
deriving DecidableEq, Repr

/-- A row of the hourly wind report (`wind_hrly`), with the fields
`get_generation` reads.  `ACTUAL_SYSTEM_WIDE` is `none` when the field is
blank or unparseable as a float. -/
structure WindRow where
  HOUR_BEGINNING : Int
  DSTFlag : String
  ACTUAL_SYSTEM_WIDE : Option ℚ
deriving DecidableEq, Repr

/-- An output record of `get_generation`. -/
structure GenerationDataPoint where
  timestamp : Int
  fuel_name : String
  gen_MW : ℚ
  freq : Freq
  market : Market
  ba_name : String
deriving DecidableEq, Repr

/-- The two materialized reports `get_generation` consumes (already past the
`_request_report` stage, which is modelled separately). -/
structure GenEnv where
  gen_report : List GenRow
  wind_report : List WindRow
deriving DecidableEq, Repr

/-- Whether a wind row's hour-beginning timestamp normalizes to `target`
(the loop guard `wind_ts == ts_hour_rounded_down`). -/
def windRowMatches (target : Int) (r : WindRow) : Bool :=
  utcify r.HOUR_BEGINNING false (is_dst r.DSTFlag "N") = target

/-- The wind-scan loop of `get_generation`: walk the wind report in file
order; at the first row whose normalized timestamp equals `target`, take its
`ACTUAL_SYSTEM_WIDE` value (`none` on a blank field, after logging) and
`break` — later rows are never inspected. -/
def scanWindGen (target : Int) : List WindRow → Option ℚ
  | [] => none
  | r :: rest =>
    if windRowMatches target r then r.ACTUAL_SYSTEM_WIDE
    else scanWindGen target rest

/-- `ERCOTClient.get_generation`.  The `latest` keyword and any extra keyword
arguments are accepted, as in the source, and never read. -/
def get_generation (env : GenEnv) (latest : Bool := false)
    (kwargs : List (String × String) := []) :
    Except PyErr (List GenerationDataPoint) :=
  match env.gen_report with
  | [] => .error .indexError
  | total_dp :: _ =>
    match total_dp.SE_MW with
    | none => .error (.valueError "could not convert string to float")
    | some total_gen =>
      let raw_ts := utcify total_dp.SE_EXE_TIME true
        (is_dst total_dp.SE_EXE_TIME_DST "s")
      let ts_hour_rounded_down := floorHour raw_ts
      match scanWindGen ts_hour_rounded_down env.wind_report with
      | none => .ok []
      | some wind_gen =>
        .ok [{ timestamp := ts_hour_rounded_down, fuel_name := "wind",
               gen_MW := wind_gen, freq := .hourly, market := .hourly,
               ba_name := "ERCOT" },
             { timestamp := ts_hour_rounded_down, fuel_name := "nonwind",
               gen_MW := total_gen - wind_gen, freq := .hourly,
               market := .hourly, ba_name := "ERCOT" }]

end Ercot

namespace Ercot

/- Load retrieval: `get_load`. -/

/-- A row of the 7-day load forecast report (`load_7day`), with the fields
the forecast branch reads.  `DeliveryDate` is the naive local midnight of the
row's date, in seconds. -/
structure LoadRow where
  DeliveryDate : Int
  HourEnding : String
  DSTFlag : String
  SystemTotal : ℚ
deriving DecidableEq, Repr

/-- An output record of `get_load`. -/
structure LoadDataPoint where
  timestamp : Int
  load_MW : ℚ
  freq : Freq
  market : Market
  ba_name : String
deriving DecidableEq, Repr

/-- The external data `get_load` may consume: the real-time conditions page
(abstracted to the load value and naive local timestamp that
`parse_rtm_load`'s anchor search extracts, `none` when an anchor label is
absent) and the materialized 7-day load report. -/
structure LoadEnv where
  rtm_page : Option (ℚ × Int)
  load_7day : List LoadRow
deriving DecidableEq, Repr

/-- Modelled from the spec: the options resolver (`handle_options` in the
base class) supplies the resolved `latest`/`forecast` mode selections and the
caller's time window for slicing. -/
structure LoadOptions where
  latest : Bool
  forecast : Bool
  start_at : Int
  end_at : Int
deriving DecidableEq, Repr

/-- Accumulate the value of a decimal digit run; `none` on a non-digit. -/
def digitsValAux (acc : Nat) : List Char → Option Nat
  | [] => some acc
  | c :: cs =>
    if c.isDigit then digitsValAux (acc * 10 + (c.toNat - 48)) cs else none

/-- The value of a nonempty run of decimal digits. -/
def digitsVal : List Char → Option Nat
  | [] => none
  | cs => digitsValAux 0 cs

/-- Python `int(s)` on a decimal string: surrounding whitespace is ignored,
an optional sign precedes a nonempty digit run; anything else raises
`ValueError` (here `none`). -/
def pyInt (s : String) : Option Int :=
  match (s.data.dropWhile Char.isWhitespace).reverse.dropWhile Char.isWhitespace
      |>.reverse with
  | '-' :: rest => (digitsVal rest).map (fun n => -(n : Int))
  | '+' :: rest => (digitsVal rest).map (fun n => (n : Int))
  | cs => (digitsVal cs).map (fun n => (n : Int))

/-- The per-row hour conversion of the forecast branch:
`int(dp['HourEnding'].split(':')[0]) - 1` (hour ending `1:00`–`24:00` to hour
beginning `0`–`23`). -/
def hourEndingToHourBeginning (s : String) : Option Int :=
  (pyInt ⟨s.data.takeWhile (fun c => c ≠ ':')⟩).map (fun n => n - 1)

/-- The forecast branch's row pipeline: compute each row's hour-beginning
integer (a `ValueError` on an unparseable `HourEnding` propagates), build the
row's absolute timestamp from its own DST flag, and pair it with the
`SystemTotal` value. -/
def buildForecastRows (rows : List LoadRow) : Except PyErr (List (Int × ℚ)) :=
  rows.mapM (fun r =>
    match hourEndingToHourBeginning r.HourEnding with
    | none => .error (.valueError "invalid literal for int() with base 10")
    | some hb =>
      .ok (utcify (r.DeliveryDate + hb * 3600) false (is_dst r.DSTFlag "N"),
           r.SystemTotal))

/-- Modelled from the spec: `slice_times` (base class) restricts a series to
the caller-requested time window. -/
def slice_times (start_at end_at : Int) (xs : List (Int × ℚ)) :
    List (Int × ℚ) :=
  xs.filter (fun p => start_at ≤ p.1 && p.1 ≤ end_at)

/-- `parse_rtm_load`: extract the load value next to `Actual System Demand`
and the `Last Updated` timestamp from the rendered status page, normalize the
timestamp with the default convention (no hour-ending shift, no DST flag),
and emit a single point.  A missing anchor label fails. -/
def parse_rtm_load (page : Option (ℚ × Int)) :
    Except PyErr (List LoadDataPoint) :=
  match page with
  | none => .error .parseError
  | some (load_val, ts) =>
    .ok [{ timestamp := utcify ts false false, load_MW := load_val,
           freq := .fivemin, market := .fivemin, ba_name := "ERCOT" }]

/-- `ERCOTClient.get_load`.  Returns the produced data (or the raised error)
together with the list of load endpoints actually fetched on that path. -/
def get_load (opts : LoadOptions) (env : LoadEnv) :
    Except PyErr (List LoadDataPoint) × List String :=
  if opts.latest then
    (parse_rtm_load env.rtm_page, ["real_time_system_conditions"])
  else if opts.forecast then
    (match buildForecastRows env.load_7day with
     | .error e => .error e
     | .ok series =>
       .ok ((slice_times opts.start_at opts.end_at series).map
         (fun p => { timestamp := p.1, load_MW := p.2, freq := .hourly,
                     market := .dam, ba_name := "ERCOT" })),
     ["load_7day"])
  else
    (.error (.valueError "Load only available for latest or forecast in ERCOT"),
     [])

end Ercot

namespace Ercot

/-! ## First-match characterizations of the two scan loops -/

/-- When row `i` is the first wind row whose normalized timestamp equals the
target, the wind scan returns exactly that row's `ACTUAL_SYSTEM_WIDE` field
and never looks past it. -/
theorem scanWindGen_first_match (target : Int) :
    ∀ (rows : List WindRow) (i : Nat) (hi : i < rows.length),
      windRowMatches target (rows.get ⟨i, hi⟩) = true →
      (∀ j (hj : j < i),
        windRowMatches target (rows.get ⟨j, Nat.lt_trans hj hi⟩) = false) →
      scanWindGen target rows = (rows.get ⟨i, hi⟩).ACTUAL_SYSTEM_WIDE
  | [], i, hi, _, _ => absurd hi (by simp)
  | r :: rest, 0, _, hmatch, _ => by
      simp only [List.get] at hmatch ⊢
      simp [scanWindGen, hmatch]
  | r :: rest, i + 1, hi, hmatch, hbefore => by
      have hr : windRowMatches target r = false := hbefore 0 (Nat.succ_pos i)
      simp only [List.get] at hmatch ⊢
      rw [scanWindGen, hr]
      simp only [Bool.false_eq_true, if_false]
      exact scanWindGen_first_match target rest i (Nat.lt_of_succ_lt_succ hi)
        hmatch (fun j hj => hbefore (j + 1) (Nat.succ_lt_succ hj))

/-- When no wind row's normalized timestamp equals the target, the wind scan
comes up empty. -/
theorem scanWindGen_no_match (target : Int) :
    ∀ rows : List WindRow,
      (∀ r ∈ rows, windRowMatches target r = false) →
      scanWindGen target rows = none
  | [], _ => rfl
  | r :: rest, h => by
      have hr : windRowMatches target r = false := h r (List.mem_cons_self r rest)
      rw [scanWindGen, hr]
      simp only [Bool.false_eq_true, if_false]
      exact scanWindGen_no_match target rest
        (fun x hx => h x (List.mem_cons_of_mem r hx))

/-- When entry `i` is the first CSV-labelled entry of a listing, the listing
scan returns exactly that entry's link joined onto the base url. -/
theorem findCsvEndpoint_first_match (base : String) :
    ∀ (entries : List ListingEntry) (i : Nat) (hi : i < entries.length),
      entryHasCsv (entries.get ⟨i, hi⟩) = true →
      (∀ j (hj : j < i),
        entryHasCsv (entries.get ⟨j, Nat.lt_trans hj hi⟩) = false) →
      findCsvEndpoint base entries =
        some (base ++ (entries.get ⟨i, hi⟩).href)
  | [], i, hi, _, _ => absurd hi (by simp)
  | e :: rest, 0, _, hmatch, _ => by
      simp only [List.get] at hmatch ⊢
      cases hl : e.label with
      | none =>
        simp only [entryHasCsv, hl] at hmatch
        exact absurd hmatch (by decide)
      | some l =>
        simp only [entryHasCsv, hl] at hmatch
        rw [findCsvEndpoint, hl]
        simp [hmatch]
  | e :: rest, i + 1, hi, hmatch, hbefore => by
      have he : entryHasCsv e = false := hbefore 0 (Nat.succ_pos i)
      simp only [List.get] at hmatch ⊢
      have hrec := findCsvEndpoint_first_match base rest i
        (Nat.lt_of_succ_lt_succ hi) hmatch
        (fun j hj => hbefore (j + 1) (Nat.succ_lt_succ hj))
      cases hl : e.label with
      | none => rw [findCsvEndpoint, hl]; exact hrec
      | some l =>
        simp only [entryHasCsv, hl] at he
        rw [findCsvEndpoint, hl]
        simp [he, hrec]

/-- When no entry of a listing is CSV-labelled, the listing scan comes up
empty. -/
theorem findCsvEndpoint_no_match (base : String) :
    ∀ entries : List ListingEntry,
      (∀ e ∈ entries, entryHasCsv e = false) →
      findCsvEndpoint base entries = none
  | [], _ => rfl
  | e :: rest, h => by
      have he : entryHasCsv e = false := h e (List.mem_cons_self e rest)
      have hrec := findCsvEndpoint_no_match base rest
        (fun x hx => h x (List.mem_cons_of_mem e hx))
      cases hl : e.label with
      | none => rw [findCsvEndpoint, hl]; exact hrec
      | some l =>
        simp only [entryHasCsv, hl] at he
        rw [findCsvEndpoint, hl]
        simp [he, hrec]

end Ercot


namespace Ercot

/-! ## Claim theorems -/

/-- C4: for every wall-clock local timestamp and DST flag, normalizing under
the hour-ending convention yields an absolute instant exactly one hour
earlier than normalizing the same wall-clock value under the hour-beginning
convention — for all inputs, hence in particular across daylight-saving
transitions. -/
theorem utcify_hour_ending_one_hour_earlier (ts : Int) (d : Bool) :
    utcify ts true d = utcify ts false d - 3600 := by
  cases d <;> simp [utcify, base_utcify] <;> ring

/-- C5: normalizing a local timestamp under the hour-ending convention and
then re-expressing the absolute instant back in the operator's local civil
time and the hour-ending convention recovers the original local timestamp
exactly. -/
theorem utcify_round_trip (ts : Int) (d : Bool) :
    localHourEndingOf (utcify ts true d) d = ts := by
  cases d <;> simp [utcify, base_utcify, localHourEndingOf]

/-- C6: `utcify` with `hour_ending` true subtracts exactly one hour from the
naive local timestamp before handing it to localization, with `hour_ending`
false passes it through unshifted, and the DST boolean supplied to
localization is `dst_flag != standard_marker`. -/
theorem utcify_shift_and_dst_flag :
    (∀ ts d, utcify ts true d = base_utcify (ts - 3600) d) ∧
    (∀ ts d, utcify ts false d = base_utcify ts d) ∧
    (∀ val standard : String, is_dst val standard = true ↔ val ≠ standard) := by
  refine ⟨fun ts d => rfl, fun ts d => rfl, fun val standard => ?_⟩
  simp [is_dst]

/-- C8: the forecast branch of `get_load` derives the hour-beginning integer
from the published `HourEnding` string as `int(hour_ending.split(':')[0]) - 1`;
`"14:00"` maps to `13`, and `"1:00"` through `"24:00"` map to `0` through
`23`. -/
theorem hourEnding_maps_to_hour_beginning :
    hourEndingToHourBeginning "14:00" = some 13 ∧
    ∀ n : Fin 24,
      hourEndingToHourBeginning (toString (n.val + 1) ++ ":00") =
        some (n.val : Int) := by
  decide

/-- C10: the result of `get_generation` never depends on the `latest` keyword
argument or on any extra keyword arguments — two runs over identical report
data that differ only in those arguments return identical sequences. -/
theorem get_generation_independent_of_latest (env : GenEnv)
    (l₁ l₂ : Bool) (k₁ k₂ : List (String × String)) :
    get_generation env l₁ k₁ = get_generation env l₂ k₂ := rfl

/-- C9: when the resolved options request neither latest nor forecast mode,
`get_load` raises the invalid-request `ValueError` and fetches no load
report on that path. -/
theorem get_load_no_mode_invalid_request (opts : LoadOptions) (env : LoadEnv)
    (hl : opts.latest = false) (hf : opts.forecast = false) :
    get_load opts env =
      (.error (.valueError "Load only available for latest or forecast in ERCOT"),
       []) := by
  simp [get_load, hl, hf]

/-- Witness for C9: concrete options with both modes off. -/
theorem get_load_no_mode_invalid_request_witness :
    get_load ⟨false, false, 0, 0⟩ ⟨none, []⟩ =
      (.error (.valueError "Load only available for latest or forecast in ERCOT"),
       []) :=
  get_load_no_mode_invalid_request ⟨false, false, 0, 0⟩ ⟨none, []⟩ rfl rfl

end Ercot

namespace Ercot

/-- C1: when the total-generation report's first row yields a parseable
`total_gen` and the first wind-report row whose normalized hour-beginning
timestamp equals `target_hour` (the total snapshot's hour-ending-normalized,
hour-truncated timestamp) carries a parseable wind value, `get_generation`
returns exactly two points — wind with the wind value, nonwind with
`total_gen` minus the wind value — both at `target_hour` with hourly
frequency and market, so the two `gen_MW` values sum to `total_gen`. -/
theorem get_generation_wind_match_spec
    (env : GenEnv) (latest : Bool) (kwargs : List (String × String))
    (total_dp : GenRow) (rest : List GenRow) (total_gen wind_gen : ℚ)
    (target : Int) (i : Nat) (hi : i < env.wind_report.length)
    (hgen : env.gen_report = total_dp :: rest)
    (htotal : total_dp.SE_MW = some total_gen)
    (htarget : target = floorHour (utcify total_dp.SE_EXE_TIME true
        (is_dst total_dp.SE_EXE_TIME_DST "s")))
    (hmatch : windRowMatches target (env.wind_report.get ⟨i, hi⟩) = true)
    (hfirst : ∀ j (hj : j < i),
      windRowMatches target (env.wind_report.get ⟨j, Nat.lt_trans hj hi⟩) = false)
    (hwind : (env.wind_report.get ⟨i, hi⟩).ACTUAL_SYSTEM_WIDE = some wind_gen) :
    get_generation env latest kwargs =
      .ok [{ timestamp := target, fuel_name := "wind", gen_MW := wind_gen,
             freq := .hourly, market := .hourly, ba_name := "ERCOT" },
           { timestamp := target, fuel_name := "nonwind",
             gen_MW := total_gen - wind_gen, freq := .hourly,
             market := .hourly, ba_name := "ERCOT" }] ∧
    wind_gen + (total_gen - wind_gen) = total_gen := by
  have hscan : scanWindGen target env.wind_report = some wind_gen := by
    rw [scanWindGen_first_match target env.wind_report i hi hmatch hfirst, hwind]
  refine ⟨?_, by ring⟩
  rw [get_generation, hgen]
  simp only [htotal, ← htarget, hscan]

/-- Witness for C1: a one-row total report (`total_gen = 1000` at local
10:30, standard time) and a wind report whose second row (the first and only
match, at local 9:00 hour-beginning) reads 250; the output is the wind/nonwind
pair 250/750 at the truncated hour. -/
theorem get_generation_wind_match_spec_witness :
    get_generation
      { gen_report := [{ SE_MW := some 1000, SE_EXE_TIME := 37800,
                         SE_EXE_TIME_DST := "s" }],
        wind_report := [{ HOUR_BEGINNING := 7200, DSTFlag := "N",
                          ACTUAL_SYSTEM_WIDE := some 99 },
                        { HOUR_BEGINNING := 32400, DSTFlag := "N",
                          ACTUAL_SYSTEM_WIDE := some 250 }] } false [] =
      .ok [{ timestamp := 54000, fuel_name := "wind", gen_MW := 250,
             freq := .hourly, market := .hourly, ba_name := "ERCOT" },
           { timestamp := 54000, fuel_name := "nonwind", gen_MW := 750,
             freq := .hourly, market := .hourly, ba_name := "ERCOT" }] := by
  have h := (get_generation_wind_match_spec
    { gen_report := [{ SE_MW := some 1000, SE_EXE_TIME := 37800,
                       SE_EXE_TIME_DST := "s" }],
      wind_report := [{ HOUR_BEGINNING := 7200, DSTFlag := "N",
                        ACTUAL_SYSTEM_WIDE := some 99 },
                      { HOUR_BEGINNING := 32400, DSTFlag := "N",
                        ACTUAL_SYSTEM_WIDE := some 250 }] }
    false [] { SE_MW := some 1000, SE_EXE_TIME := 37800, SE_EXE_TIME_DST := "s" }
    [] 1000 250 54000 1 (by decide) rfl rfl (by decide) (by decide)
    (fun j hj => by
      have hj0 : j = 0 := Nat.lt_one_iff.mp hj
      subst hj0
      exact (by decide :
        windRowMatches 54000
          { HOUR_BEGINNING := 7200, DSTFlag := "N",
            ACTUAL_SYSTEM_WIDE := some 99 } = false))
    rfl).1
  norm_num at h
  exact h

/-- C2: when the wind value is unavailable — no wind row's normalized
timestamp equals `target_hour`, or the first matching row's wind field is
blank/unparseable — `get_generation` returns an empty sequence without
raising; the scan stops at the first timestamp match even when a later row
at the same hour is parseable. -/
theorem get_generation_wind_unavailable_empty
    (env : GenEnv) (latest : Bool) (kwargs : List (String × String))
    (total_dp : GenRow) (rest : List GenRow) (total_gen : ℚ) (target : Int)
    (hgen : env.gen_report = total_dp :: rest)
    (htotal : total_dp.SE_MW = some total_gen)
    (htarget : target = floorHour (utcify total_dp.SE_EXE_TIME true
        (is_dst total_dp.SE_EXE_TIME_DST "s")))
    (hunavail :
      (∀ r ∈ env.wind_report, windRowMatches target r = false) ∨
      (∃ i, ∃ hi : i < env.wind_report.length,
        windRowMatches target (env.wind_report.get ⟨i, hi⟩) = true ∧
        (∀ j (hj : j < i),
          windRowMatches target (env.wind_report.get ⟨j, Nat.lt_trans hj hi⟩)
            = false) ∧
        (env.wind_report.get ⟨i, hi⟩).ACTUAL_SYSTEM_WIDE = none)) :
    get_generation env latest kwargs = .ok [] := by
  have hscan : scanWindGen target env.wind_report = none := by
    rcases hunavail with hnone | ⟨i, hi, hmatch, hfirst, hblank⟩
    · exact scanWindGen_no_match target env.wind_report hnone
    · rw [scanWindGen_first_match target env.wind_report i hi hmatch hfirst,
        hblank]
  rw [get_generation, hgen]
  simp only [htotal, ← htarget, hscan]

/-- Witness for C2: the first matching wind row has a blank field while a
later row at the very same hour is parseable; the call still returns the
empty sequence. -/
theorem get_generation_wind_unavailable_empty_witness :
    get_generation
      { gen_report := [{ SE_MW := some 1000, SE_EXE_TIME := 37800,
                         SE_EXE_TIME_DST := "s" }],
        wind_report := [{ HOUR_BEGINNING := 32400, DSTFlag := "N",
                          ACTUAL_SYSTEM_WIDE := none },
                        { HOUR_BEGINNING := 32400, DSTFlag := "N",
                          ACTUAL_SYSTEM_WIDE := some 250 }] } false [] =
      .ok [] :=
  get_generation_wind_unavailable_empty
    { gen_report := [{ SE_MW := some 1000, SE_EXE_TIME := 37800,
                       SE_EXE_TIME_DST := "s" }],
      wind_report := [{ HOUR_BEGINNING := 32400, DSTFlag := "N",
                        ACTUAL_SYSTEM_WIDE := none },
                      { HOUR_BEGINNING := 32400, DSTFlag := "N",
                        ACTUAL_SYSTEM_WIDE := some 250 }] }
    false [] { SE_MW := some 1000, SE_EXE_TIME := 37800, SE_EXE_TIME_DST := "s" }
    [] 1000 54000 rfl rfl (by decide)
    (Or.inr ⟨0, by decide, by decide,
      fun j hj => absurd hj (Nat.not_lt_zero j), rfl⟩)

end Ercot

namespace Ercot

/-- C3: the report locator selects the first entry in document order whose
label contains the case-sensitive substring `csv` (first-match, ties broken
by document order), and when no entry qualifies it fails with the
report-not-found error carrying the report id and the raw listing. -/
theorem locateReport_first_csv_spec (report_type : String)
    (listing : List ListingEntry) :
    (∀ i (hi : i < listing.length),
      entryHasCsv (listing.get ⟨i, hi⟩) = true →
      (∀ j (hj : j < i),
        entryHasCsv (listing.get ⟨j, Nat.lt_trans hj hi⟩) = false) →
      locateReport report_type listing =
        .ok (base_report_url ++ (listing.get ⟨i, hi⟩).href)) ∧
    ((∀ e ∈ listing, entryHasCsv e = false) →
      locateReport report_type listing =
        .error (.reportNotFound report_type listing)) := by
  constructor
  · intro i hi hcsv hfirst
    rw [locateReport,
      findCsvEndpoint_first_match base_report_url listing i hi hcsv hfirst]
  · intro hnone
    rw [locateReport, findCsvEndpoint_no_match base_report_url listing hnone]

/-- Witness for C3: on the listing `[label "xml", label "data (csv)"]` the
locator returns the second entry's link; on a CSV-free listing it fails with
the report id and the listing. -/
theorem locateReport_first_csv_spec_witness :
    locateReport "wind_hrly"
      [{ label := some "xml", href := "/a" },
       { label := some "data (csv)", href := "/b" }] =
      .ok "http://mis.ercot.com/b" ∧
    locateReport "wind_hrly" [{ label := some "xml", href := "/a" }] =
      .error (.reportNotFound "wind_hrly"
        [{ label := some "xml", href := "/a" }]) := by
  constructor
  · exact (locateReport_first_csv_spec "wind_hrly"
      [{ label := some "xml", href := "/a" },
       { label := some "data (csv)", href := "/b" }]).1 1 (by decide)
      (by decide)
      (fun j hj => by
        have hj0 : j = 0 := Nat.lt_one_iff.mp hj
        subst hj0
        exact (by decide :
          entryHasCsv { label := some "xml", href := "/a" } = false))
  · exact (locateReport_first_csv_spec "wind_hrly"
      [{ label := some "xml", href := "/a" }]).2 (by decide)

/-- C7: the materialization stage turns an empty/falsy transport response
into an empty table rather than an error; on a populated response every
column name is whitespace-trimmed and every row containing a missing/null
value in any column is absent from the result. -/
theorem materializeReport_spec :
    materializeReport none = { columns := [], rows := [] } ∧
    ∀ t : RawTable,
      (materializeReport (some t)).columns = t.columns.map pyStrip ∧
      (∀ row ∈ (materializeReport (some t)).rows, ∀ cell ∈ row,
        cell.isSome = true) ∧
      (∀ row ∈ t.rows, (∃ cell ∈ row, cell = none) →
        row ∉ (materializeReport (some t)).rows) := by
  refine ⟨rfl, fun t => ⟨rfl, ?_, ?_⟩⟩
  · intro row hrow cell hcell
    have hall : row.all Option.isSome = true := (List.mem_filter.mp hrow).2
    exact (List.all_eq_true.mp hall) cell hcell
  · rintro row _ ⟨cell, hcellmem, hcellnone⟩ hmem
    have hall : row.all Option.isSome = true := (List.mem_filter.mp hmem).2
    have hsome := (List.all_eq_true.mp hall) cell hcellmem
    rw [hcellnone] at hsome
    exact absurd hsome (by decide)

/-- Witness for C7: the empty response gives the empty table, and a row with
a null cell is dropped from a concrete populated table. -/
theorem materializeReport_spec_witness :
    materializeReport none = { columns := [], rows := [] } ∧
    [some "1", (none : Option String)] ∉
      (materializeReport (some
        { columns := [" A "],
          rows := [[some "1", none], [some "2", some "3"]] })).rows :=
  ⟨materializeReport_spec.1,
   (materializeReport_spec.2
      { columns := [" A "],
        rows := [[some "1", none], [some "2", some "3"]] }).2.2
     [some "1", none] (by decide) ⟨none, by decide, rfl⟩⟩

end Ercot
